import Mathlib

/-! Shallow embedding of the pyhealthbox3 client library (healthbox3.py and models.py).
Python dictionaries and JSON payloads are modelled by an inductive Json type with
rational numbers, Python exceptions by explicit Except results, and the aiohttp
transport by an abstract outcome per request. -/

/-- JSON-like values as held in the device payloads and Python attributes. -/
inductive Json where
  | null : Json
  | bool : Bool → Json
  | num : ℚ → Json
  | str : String → Json
  | arr : List Json → Json
  | obj : List (String × Json) → Json

/-- Python exceptions that the modelled code can raise. -/
inductive PyError where
  | keyError (key : String) : PyError
  | indexError : PyError
  | typeError : PyError
  | attributeError : PyError
  | zeroDivisionError : PyError

/-- An aiohttp ClientError or ClientResponseError raised by the transport layer. -/
structure AioException where
  msg : String

/-- The original exception preserved as the cause of a generic API error. -/
inductive RequestCause where
  | transport (e : AioException) : RequestCause
  | badStatus (status : Nat) : RequestCause

/-- The three exception classes of healthbox3.py: Healthbox3ApiClientAuthenticationError,
Healthbox3ApiClientCommunicationError and the generic Healthbox3ApiClientError
(which carries the underlying cause). -/
inductive ApiClientError where
  | authenticationError : ApiClientError
  | communicationError : ApiClientError
  | apiError (cause : RequestCause) : ApiClientError

/-- Errors escaping a high-level operation: an API-client error or a plain Python exception. -/
inductive FetchError where
  | api (e : ApiClientError) : FetchError
  | py (e : PyError) : FetchError

/-- Abstract outcome of one HTTP exchange as seen by Healthbox3.request. -/
inductive TransportOutcome where
  | timeout : TransportOutcome
  | transportError (e : AioException) : TransportOutcome
  | response (status : Nat) (body : Json) (text : String) : TransportOutcome

/-- Python subscription d[k] with a string key: KeyError on a missing dict key,
TypeError when the value is not a dict. -/
def Json.getKey : Json → String → Except PyError Json
  | .obj kvs, k =>
    match kvs.lookup k with
    | some v => .ok v
    | none => .error (.keyError k)
  | _, _ => .error .typeError

/-- Whether needle occurs as a contiguous run inside the character list. -/
def listInfixOf (needle : List Char) : List Char → Bool
  | [] => needle.isEmpty
  | c :: rest => needle.isPrefixOf (c :: rest) || listInfixOf needle rest

/-- Python substring test: needle in haystack. -/
def strContains (haystack needle : String) : Bool :=
  listInfixOf needle.toList haystack.toList

/-- Python equality of a JSON value against a string literal (cross-type equality is false). -/
def Json.eqStr : Json → String → Bool
  | .str a, b => a == b
  | _, _ => false

/-- Python membership k in v: key membership for dicts, element membership for lists,
substring for strings, TypeError otherwise. -/
def Json.containsStr : Json → String → Except PyError Bool
  | .obj kvs, k => .ok (kvs.any (fun kv => kv.1 == k))
  | .arr xs, k => .ok (xs.any (fun x => x.eqStr k))
  | .str s, k => .ok (strContains s k)
  | _, _ => .error .typeError

/-- Python truthiness of a JSON-like value. -/
def Json.truthy : Json → Bool
  | .null => false
  | .bool b => b
  | .num q => q != 0
  | .str s => s != ""
  | .arr xs => !xs.isEmpty
  | .obj kvs => !kvs.isEmpty

/-- Coercion used by Python arithmetic: numbers and booleans are numeric, all else TypeError. -/
def Json.asNum : Json → Except PyError ℚ
  | .num q => .ok q
  | .bool b => .ok (if b then 1 else 0)
  | _ => .error .typeError

/-- Python len(v). -/
def Json.pyLen : Json → Except PyError Nat
  | .arr xs => .ok xs.length
  | .obj kvs => .ok kvs.length
  | .str s => .ok s.length
  | _ => .error .typeError

/-- Python v * 1000: numeric scaling, sequence repetition for strings and lists. -/
def Json.mulThousand : Json → Except PyError Json
  | .num q => .ok (.num (q * 1000))
  | .bool b => .ok (.num (if b then 1000 else 0))
  | .str s => .ok (.str (String.join (List.replicate 1000 s)))
  | .arr xs => .ok (.arr (List.flatten (List.replicate 1000 xs)))
  | _ => .error .typeError

/-- Python iteration over a value: list elements, dict keys, string characters. -/
def Json.pyIter : Json → Except PyError (List Json)
  | .arr xs => .ok xs
  | .obj kvs => .ok (kvs.map (fun kv => Json.str kv.1))
  | .str s => .ok (s.toList.map (fun c => Json.str (String.mk [c])))
  | _ => .error .typeError

/-- The key/value pairs traversed by: for room in data, indexing data[room]. Only a dict
supports this; other shapes end in a TypeError while iterating or subscripting. -/
def Json.roomPairs : Json → Except PyError (List (String × Json))
  | .obj kvs => .ok kvs
  | _ => .error .typeError

/-- Left-to-right filtering with a fallible predicate, as a Python list comprehension. -/
def filterE (p : Json → Except PyError Bool) : List Json → Except PyError (List Json)
  | [] => .ok []
  | x :: xs => do
    let b ← p x
    let rest ← filterE p xs
    if b then .ok (x :: rest) else .ok rest

/-- Healthbox3RoomBoost from models.py: defaults level=None, enabled=False, remaining=None. -/
structure Healthbox3RoomBoost where
  level : Json := .null
  enabled : Json := .bool false
  remaining : Json := .null

/-- Modelled from the spec: the class Healthbox3WIFIConnectionDataObject is imported by
healthbox3.py but its definition is missing from the sources under src/; the spec describes
a Wi-Fi status record with fields status, ssid, connection_error (optional strings) and
internet_connection (optional boolean), each unset by default and set field by field. -/
structure Healthbox3WIFIConnectionDataObject where
  status : Json := .null
  internet_connection : Json := .null
  ssid : Json := .null
  connection_error : Json := .null

/-- Healthbox3Room from models.py: the attributes captured by its constructor. -/
structure Healthbox3Room where
  advanced_features : Bool
  room_id : String
  name : Json
  type : Json
  sensors_data : List Json
  enabled_sensors : List Json
  room_type : Json
  parameters : Json
  actuator : Json
  profile : Json
  boost : Healthbox3RoomBoost := {}

/-- Healthbox3Room constructor: reads name, type, sensor (iterated for the enabled-sensors
comprehension), type again, parameter, actuator, profile_name, in source order; each missing
key raises a plain KeyError. -/
def Healthbox3Room.init (room_id : String) (room_data : Json) (advanced_features : Bool) :
    Except PyError Healthbox3Room := do
  let name ← room_data.getKey "name"
  let ty ← room_data.getKey "type"
  let sensorsJson ← room_data.getKey "sensor"
  let sensors_data ← sensorsJson.pyIter
  let enabled_sensors ← sensors_data.mapM (fun s => s.getKey "type")
  let room_type ← room_data.getKey "type"
  let parameters ← room_data.getKey "parameter"
  let actuator ← room_data.getKey "actuator"
  let profile ← room_data.getKey "profile_name"
  .ok { advanced_features := advanced_features, room_id := room_id, name := name,
        type := ty, sensors_data := sensors_data, enabled_sensors := enabled_sensors,
        room_type := room_type, parameters := parameters, actuator := actuator,
        profile := profile }

/-- The fixed sensor-type to parameter-key mapping of _get_sensor_value (the source's
duplicated dict key collapses to one entry, as a Python dict literal does). -/
def sensor_type_keys : List (String × String) :=
  [("indoor volatile organic compounds", "concentration"),
   ("indoor air quality index", "index"),
   ("indoor CO2", "concentration"),
   ("indoor relative humidity", "humidity"),
   ("indoor temperature", "temperature")]

/-- Healthbox3Room._validate_sensor: true only when the record has a parameter member
containing the expected key. -/
def Healthbox3Room._validate_sensor (sensor : Json) (sensor_key : String) :
    Except PyError Bool := do
  let hasParam ← sensor.containsStr "parameter"
  if hasParam then do
    let p ← sensor.getKey "parameter"
    let hasKey ← p.containsStr sensor_key
    if hasKey then .ok true else .ok false
  else .ok false

/-- The list comprehension in _get_sensor_value: sensors whose type member contains
sensor_type. -/
def filterMatches (sensor_type : String) (sensors : List Json) :
    Except PyError (List Json) :=
  filterE (fun s => do
    let t ← s.getKey "type"
    t.containsStr sensor_type) sensors

/-- Healthbox3Room._get_sensor_value: first matching sensor (IndexError if none), look up
the parameter key for the sensor type, validate, and read the value. -/
def Healthbox3Room._get_sensor_value (room : Healthbox3Room) (sensor_type : String) :
    Except PyError (Option Json) := do
  let matched ← filterMatches sensor_type room.sensors_data
  match matched with
  | [] => .error .indexError
  | sensor :: _ =>
    match sensor_type_keys.lookup sensor_type with
    | none => .error (.keyError sensor_type)
    | some sensor_key => do
      let valid ← Healthbox3Room._validate_sensor sensor sensor_key
      if valid then do
        let p ← sensor.getKey "parameter"
        let v ← p.getKey sensor_key
        let value ← v.getKey "value"
        .ok (some value)
      else .ok none

/-- Healthbox3Room.indoor_temperature. -/
def Healthbox3Room.indoor_temperature (room : Healthbox3Room) : Except PyError (Option Json) :=
  if room.advanced_features && room.enabled_sensors.any (fun j => j.eqStr "indoor temperature") then
    room._get_sensor_value "indoor temperature"
  else .ok none

/-- Healthbox3Room.indoor_humidity. -/
def Healthbox3Room.indoor_humidity (room : Healthbox3Room) : Except PyError (Option Json) :=
  if room.advanced_features && room.enabled_sensors.any (fun j => j.eqStr "indoor relative humidity") then
    room._get_sensor_value "indoor relative humidity"
  else .ok none

/-- Healthbox3Room.indoor_co2_concentration. -/
def Healthbox3Room.indoor_co2_concentration (room : Healthbox3Room) : Except PyError (Option Json) :=
  if room.advanced_features && room.enabled_sensors.any (fun j => j.eqStr "indoor CO2") then
    room._get_sensor_value "indoor CO2"
  else .ok none

/-- Healthbox3Room.indoor_aqi. -/
def Healthbox3Room.indoor_aqi (room : Healthbox3Room) : Except PyError (Option Json) :=
  if room.advanced_features && room.enabled_sensors.any (fun j => j.eqStr "indoor air quality index") then
    room._get_sensor_value "indoor air quality index"
  else .ok none

/-- Healthbox3Room.indoor_voc_ppm. -/
def Healthbox3Room.indoor_voc_ppm (room : Healthbox3Room) : Except PyError (Option Json) :=
  if room.advanced_features && room.enabled_sensors.any (fun j => j.eqStr "indoor volatile organic compounds") then
    room._get_sensor_value "indoor volatile organic compounds"
  else .ok none

/-- Healthbox3Room.indoor_voc_microg_per_cubic: the ppm extraction followed by the
truthiness-guarded multiplication by 1000. -/
def Healthbox3Room.indoor_voc_microg_per_cubic (room : Healthbox3Room) :
    Except PyError (Option Json) :=
  if room.advanced_features && room.enabled_sensors.any (fun j => j.eqStr "indoor volatile organic compounds") then do
    let mgpc ← room._get_sensor_value "indoor volatile organic compounds"
    match mgpc with
    | some v =>
      if v.truthy then do
        let scaled ← v.mulThousand
        .ok (some scaled)
      else .ok (some v)
    | none => .ok none
  else .ok none

/-- The nominal lookup of _get_airflow_ventilation_rate. -/
def Healthbox3Room.nominalLookup (room : Healthbox3Room) : Except PyError Json := do
  let n ← room.parameters.getKey "nominal"
  n.getKey "value"

/-- The offset lookup of _get_airflow_ventilation_rate. -/
def Healthbox3Room.offsetLookup (room : Healthbox3Room) : Except PyError Json := do
  let o ← room.parameters.getKey "offset"
  o.getKey "value"

/-- The offset after the KeyError handler: a missing offset defaults to 0. -/
def Healthbox3Room.effOffset (room : Healthbox3Room) : Except PyError Json :=
  match room.offsetLookup with
  | .error (.keyError _) => .ok (.num 0)
  | r => r

/-- The air-valve comprehension over the room's actuator list. -/
def Healthbox3Room.airValves (room : Healthbox3Room) : Except PyError (List Json) := do
  let acts ← room.actuator.pyIter
  filterE (fun x => do
    let t ← x.getKey "type"
    .ok (t.eqStr "air valve")) acts

/-- The flow_rate lookup on the first air valve. -/
def flowRateLookup (valve : Json) : Except PyError Json := do
  let p ← valve.getKey "parameter"
  let fr ← p.getKey "flow_rate"
  fr.getKey "value"

/-- Healthbox3Room._get_airflow_ventilation_rate: nominal (KeyError gives None), offset
(KeyError gives 0), first air-valve actuator (none gives None), its flow_rate (KeyError
gives None), then flow_rate / (nominal + offset), with ZeroDivisionError unguarded. -/
def Healthbox3Room._get_airflow_ventilation_rate (room : Healthbox3Room) :
    Except PyError (Option Json) :=
  match room.nominalLookup with
  | .error (.keyError _) => .ok none
  | .error e => .error e
  | .ok nominal =>
    match room.effOffset with
    | .error e => .error e
    | .ok offset =>
      match room.airValves with
      | .error e => .error e
      | .ok [] => .ok none
      | .ok (valve :: _) =>
        match flowRateLookup valve with
        | .error (.keyError _) => .ok none
        | .error e => .error e
        | .ok fr =>
          match fr.asNum, nominal.asNum, offset.asNum with
          | .ok fq, .ok nq, .ok oq =>
            if nq + oq = 0 then .error .zeroDivisionError
            else .ok (some (.num (fq / (nq + oq))))
          | .error e, _, _ => .error e
          | _, .error e, _ => .error e
          | _, _, .error e => .error e

/-- Healthbox3Room.airflow_ventilation_rate (note: not gated on advanced_features). -/
def Healthbox3Room.airflow_ventilation_rate (room : Healthbox3Room) :
    Except PyError (Option Json) :=
  room._get_airflow_ventilation_rate

/-- The scan of _get_global_aqi_from_data over the flat sensor list. -/
def aqiScan : List Json → Except PyError (Option Json)
  | [] => .ok none
  | s :: rest => do
    let t ← s.getKey "type"
    if t.eqStr "global air quality index" then do
      let p ← s.getKey "parameter"
      let i ← p.getKey "index"
      let v ← i.getKey "value"
      .ok (some v)
    else aqiScan rest

/-- Healthbox3DataObject from models.py. The class defines no default for error_count,
firmware_version or wifi: none here models the attribute not being set at all, and
reading it raises AttributeError. -/
structure Healthbox3DataObject where
  serial : Json
  description : Json
  warranty_number : Json
  global_aqi : Option Json
  rooms : List Healthbox3Room
  error_count : Option Nat := none
  firmware_version : Option Json := none
  wifi : Option Healthbox3WIFIConnectionDataObject := none

/-- Healthbox3DataObject._get_global_aqi_from_data. -/
def Healthbox3DataObject._get_global_aqi_from_data (data : Json) :
    Except PyError (Option Json) := do
  let sensorsJson ← data.getKey "sensor"
  let sensors ← sensorsJson.pyIter
  aqiScan sensors

/-- Healthbox3DataObject constructor: serial, description, warranty_number, the global-AQI
scan, then one Healthbox3Room per entry of the room mapping, in payload order. -/
def Healthbox3DataObject.init (data : Json) (advanced_features : Bool) :
    Except PyError Healthbox3DataObject := do
  let serial ← data.getKey "serial"
  let description ← data.getKey "description"
  let warranty_number ← data.getKey "warranty_number"
  let global_aqi ← Healthbox3DataObject._get_global_aqi_from_data data
  let roomsJson ← data.getKey "room"
  let pairs ← roomsJson.roomPairs
  let rooms ← pairs.mapM (fun kv => Healthbox3Room.init kv.1 kv.2 advanced_features)
  .ok { serial := serial, description := description, warranty_number := warranty_number,
        global_aqi := global_aqi, rooms := rooms }

/-- The try-body of async_get_room_boost_data: read level, enable, remaining in order. -/
def boostBody (resp : Except ApiClientError Json) : Except FetchError Healthbox3RoomBoost := do
  let data ← resp.mapError FetchError.api
  let level ← (data.getKey "level").mapError FetchError.py
  let enabled ← (data.getKey "enable").mapError FetchError.py
  let remaining ← (data.getKey "remaining").mapError FetchError.py
  .ok { level := level, enabled := enabled, remaining := remaining }

/-- Healthbox3.async_get_room_boost_data: the bare except turns every failure into a
default Healthbox3RoomBoost. -/
def Healthbox3.async_get_room_boost_data (resp : Except ApiClientError Json) :
    Healthbox3RoomBoost :=
  match boostBody resp with
  | .ok b => b
  | .error _ => {}

/-- Healthbox3._async_get_errors: the bare except swallows every failure of the try body,
but the finally clause logs self._data.error_count, whose attribute read raises
AttributeError when it was never assigned. -/
def Healthbox3._async_get_errors (resp : Except ApiClientError Json)
    (d : Healthbox3DataObject) : Except PyError Healthbox3DataObject :=
  let tryResult : Except FetchError Nat := do
    let data ← resp.mapError FetchError.api
    (data.pyLen).mapError FetchError.py
  let d' : Healthbox3DataObject :=
    match tryResult with
    | .ok n => { d with error_count := some n }
    | .error _ => d
  match d'.error_count with
  | some _ => .ok d'
  | none => .error .attributeError

/-- Healthbox3._async_get_global_core_data: sets firmware_version only when the payload
carries a firmware-version member; the finally clause reads self._data.firmware_version,
raising AttributeError when it was never assigned. -/
def Healthbox3._async_get_global_core_data (resp : Except ApiClientError Json)
    (d : Healthbox3DataObject) : Except PyError Healthbox3DataObject :=
  let tryResult : Except FetchError (Option Json) := do
    let data ← resp.mapError FetchError.api
    let hasFw ← (data.containsStr "firmware version").mapError FetchError.py
    if hasFw then do
      let fw ← (data.getKey "firmware version").mapError FetchError.py
      .ok (some fw)
    else .ok none
  let d' : Healthbox3DataObject :=
    match tryResult with
    | .ok (some fw) => { d with firmware_version := some fw }
    | _ => d
  match d'.firmware_version with
  | some _ => .ok d'
  | none => .error .attributeError

/-- The try-body of _async_get_wifi_status: build a fresh Wi-Fi record field by field,
each key optional. -/
def wifiBody (resp : Except ApiClientError Json) :
    Except FetchError Healthbox3WIFIConnectionDataObject := do
  let data ← resp.mapError FetchError.api
  let hasStatus ← (data.containsStr "status").mapError FetchError.py
  let status ← if hasStatus then (data.getKey "status").mapError FetchError.py else .ok .null
  let hasIc ← (data.containsStr "internet_connection").mapError FetchError.py
  let ic ← if hasIc then (data.getKey "internet_connection").mapError FetchError.py else .ok .null
  let hasSsid ← (data.containsStr "ssid").mapError FetchError.py
  let ssid ← if hasSsid then (data.getKey "ssid").mapError FetchError.py else .ok .null
  let hasCe ← (data.containsStr "connection_error").mapError FetchError.py
  let ce ← if hasCe then (data.getKey "connection_error").mapError FetchError.py else .ok .null
  .ok { status := status, internet_connection := ic, ssid := ssid, connection_error := ce }

/-- Healthbox3._async_get_wifi_status: the bare except swallows the try body's failure,
but the finally clause reads self._data.wifi.status, raising AttributeError when the wifi
attribute was never assigned. -/
def Healthbox3._async_get_wifi_status (resp : Except ApiClientError Json)
    (d : Healthbox3DataObject) : Except PyError Healthbox3DataObject :=
  let d' : Healthbox3DataObject :=
    match wifiBody resp with
    | .ok w => { d with wifi := some w }
    | .error _ => d
  match d'.wifi with
  | some _ => .ok d'
  | none => .error .attributeError

/-- The responses the device returns for one full async_get_data run, keyed by call. -/
structure FetchResponses where
  primary : Except ApiClientError Json
  errors : Except ApiClientError Json
  core : Except ApiClientError Json
  wifi : Except ApiClientError Json
  boost : String → Except ApiClientError Json

/-- The per-room loop of async_get_data: the debug logging evaluates every derived
property (in source order), then the boost fetch result is attached to the room. -/
def roomLoop (boost : String → Except ApiClientError Json) :
    List Healthbox3Room → Except PyError (List Healthbox3Room)
  | [] => .ok []
  | room :: rest => do
    let _ ← room.airflow_ventilation_rate
    let _ ← room.indoor_aqi
    let _ ← room.indoor_co2_concentration
    let _ ← room.indoor_humidity
    let _ ← room.indoor_temperature
    let _ ← room.indoor_voc_ppm
    let _ ← room.indoor_voc_microg_per_cubic
    let rest' ← roomLoop boost rest
    .ok ({ room with boost := Healthbox3.async_get_room_boost_data (boost room.room_id) } :: rest')

/-- Healthbox3.async_get_data: primary GET, snapshot construction, the three enrichment
calls, then the per-room boost loop; returns the raw primary payload and the data object. -/
def Healthbox3.async_get_data (advanced_features : Bool) (rs : FetchResponses) :
    Except FetchError (Json × Healthbox3DataObject) := do
  let general_data ← rs.primary.mapError FetchError.api
  let d0 ← (Healthbox3DataObject.init general_data advanced_features).mapError FetchError.py
  let d1 ← (Healthbox3._async_get_errors rs.errors d0).mapError FetchError.py
  let d2 ← (Healthbox3._async_get_global_core_data rs.core d1).mapError FetchError.py
  let d3 ← (Healthbox3._async_get_wifi_status rs.wifi d2).mapError FetchError.py
  let rooms' ← (roomLoop rs.boost d3.rooms).mapError FetchError.py
  .ok (general_data, { d3 with rooms := rooms' })

/-- Healthbox3 client state: api_key none models the _api_key attribute never being
assigned (the constructor only assigns it when the argument is truthy, and the class
declares no default), session is the optional network session (by identifier). -/
structure Healthbox3 where
  host : String
  api_key : Option String := none
  session : Option Nat := none
  close_session : Bool := false
  advanced_features : Bool := false

/-- Healthbox3 constructor: stores host and session, sets _close_session to False, and
assigns _api_key only when the argument is truthy. -/
def Healthbox3.init (host : String) (api_key : Option String) (session : Option Nat) :
    Healthbox3 :=
  { host := host,
    api_key := match api_key with
      | some k => if k == "" then none else some k
      | none => none,
    session := session,
    close_session := false }

/-- The session setup at the top of Healthbox3.request: create and own a session when
none exists yet. -/
def Healthbox3.ensureSession (c : Healthbox3) (fresh : Nat) : Healthbox3 :=
  match c.session with
  | none => { c with session := some fresh, close_session := true }
  | some _ => c

/-- The error classification of Healthbox3.request: timeout becomes a communication
error; a 401/403 status becomes an authentication error before raise_for_status; a
status of 400 or above becomes the generic API error wrapping the status; a transport
exception becomes the generic API error wrapping it as its cause. -/
def Healthbox3.request (expect_json_error : Bool) (o : TransportOutcome) :
    Except ApiClientError (Json ⊕ String) :=
  match o with
  | .timeout => .error .communicationError
  | .transportError e => .error (.apiError (.transport e))
  | .response status body text =>
    if status = 401 ∨ status = 403 then .error .authenticationError
    else if 400 ≤ status then .error (.apiError (.badStatus status))
    else if expect_json_error then .ok (.inr text)
    else .ok (.inl body)

/-- Healthbox3.request including its session setup effect. -/
def Healthbox3.requestFull (c : Healthbox3) (fresh : Nat) (expect_json_error : Bool)
    (o : TransportOutcome) : Healthbox3 × Except ApiClientError (Json ⊕ String) :=
  (c.ensureSession fresh, Healthbox3.request expect_json_error o)

/-- Healthbox3.close: awaits session.close() only when a session exists and the client
owns it; it reads but never writes any client attribute. The second component is the
session that was closed, if any. -/
def Healthbox3.close (c : Healthbox3) : Healthbox3 × Option Nat :=
  match c.session with
  | some s => if c.close_session then (c, some s) else (c, none)
  | none => (c, none)

/-- Healthbox3._async_validate_advanced_api_features: GET the key-status endpoint; a state
member different from valid gives false, otherwise the advanced-features flag is set. -/
def Healthbox3._async_validate_advanced_api_features (c : Healthbox3)
    (statusResp : Except ApiClientError Json) : Except FetchError (Healthbox3 × Bool) := do
  let auth ← statusResp.mapError FetchError.api
  let st ← (auth.getKey "state").mapError FetchError.py
  if st.eqStr "valid" then .ok ({ c with advanced_features := true }, true)
  else .ok (c, false)

/-- The enabling tail of async_enable_advanced_api_features: POST the key, re-validate,
and on failed re-validation close the session and raise the authentication error. The
second component is the list of endpoints hit. -/
def enablePost (c : Healthbox3) (postResp statusResp2 : Except ApiClientError Json)
    (log : List String) : Except FetchError Healthbox3 × List String :=
  let log1 := log ++ ["/v2/api/api_key"]
  match postResp with
  | .error e => (.error (.api e), log1)
  | .ok _ =>
    let log2 := log1 ++ ["/v2/api/api_key/status"]
    match c._async_validate_advanced_api_features statusResp2 with
    | .error e => (.error e, log2)
    | .ok (c2, valid2) =>
      if valid2 then (.ok c2, log2)
      else (.error (.api .authenticationError), log2)

/-- Healthbox3.async_enable_advanced_api_features: the opening test reads self._api_key,
so a client whose constructor never assigned it raises AttributeError before any request;
with a falsy key the else branch raises the authentication error; otherwise the optional
pre-validation and the enabling handshake run. The second component is the list of
endpoints hit. -/
def Healthbox3.async_enable_advanced_api_features (c : Healthbox3) (pre_validation : Bool)
    (statusResp1 postResp statusResp2 : Except ApiClientError Json) :
    Except FetchError Healthbox3 × List String :=
  match c.api_key with
  | none => (.error (.py .attributeError), [])
  | some key =>
    if key == "" then (.error (.api .authenticationError), [])
    else
      if pre_validation then
        match c._async_validate_advanced_api_features statusResp1 with
        | .error e => (.error e, ["/v2/api/api_key/status"])
        | .ok (c1, already_valid) =>
          if already_valid then (.ok c1, ["/v2/api/api_key/status"])
          else enablePost c1 postResp statusResp2 ["/v2/api/api_key/status"]
      else enablePost c postResp statusResp2 []

/-- A room whose payload carries nominal 2, offset 1 and one air valve with flow rate 6,
with advanced features disabled. -/
def exampleAirflowRoom : Healthbox3Room :=
  { advanced_features := false, room_id := "1", name := .str "living", type := .str "t",
    sensors_data := [], enabled_sensors := [], room_type := .str "t",
    parameters := .obj [("nominal", .obj [("value", .num 2)]),
                        ("offset", .obj [("value", .num 1)])],
    actuator := .arr [.obj [("type", .str "air valve"),
                            ("parameter", .obj [("flow_rate", .obj [("value", .num 6)])])]],
    profile := .str "p" }

/-- A room whose parameter map lacks the nominal key. -/
def noNominalRoom : Healthbox3Room :=
  { advanced_features := true, room_id := "2", name := .str "kitchen", type := .str "t",
    sensors_data := [], enabled_sensors := [], room_type := .str "t",
    parameters := .obj [], actuator := .arr [], profile := .str "p" }

/-- A room with advanced features enabled and a VOC sensor reporting concentration 4. -/
def vocRoom : Healthbox3Room :=
  { advanced_features := true, room_id := "3", name := .str "bath", type := .str "t",
    sensors_data := [.obj [("type", .str "indoor volatile organic compounds"),
                           ("parameter", .obj [("concentration", .obj [("value", .num 4)])])]],
    enabled_sensors := [.str "indoor volatile organic compounds"],
    room_type := .str "t", parameters := .obj [], actuator := .arr [],
    profile := .str "p" }

/-- A room with an empty sensor list. -/
def emptySensorsRoom : Healthbox3Room :=
  { advanced_features := true, room_id := "4", name := .str "hall", type := .str "t",
    sensors_data := [], enabled_sensors := [], room_type := .str "t",
    parameters := .obj [], actuator := .arr [], profile := .str "p" }

/-- A minimal well-formed primary payload with no rooms. -/
def minimalPayload : Json :=
  .obj [("serial", .str "s"), ("description", .str "d"), ("warranty_number", .str "w"),
        ("sensor", .arr []), ("room", .obj [])]

/-- A valid-JSON primary payload lacking the room key, whose sensor member is a number. -/
def payloadNoRoomBadSensor : Json :=
  .obj [("serial", .str "s"), ("description", .str "d"), ("warranty_number", .str "w"),
        ("sensor", .num 5)]

/-- Responses for a run whose primary GET succeeds but whose error-list GET times out. -/
def rsErrorsTimeout : FetchResponses :=
  { primary := .ok minimalPayload,
    errors := .error .communicationError,
    core := .ok (.obj []),
    wifi := .ok (.obj []),
    boost := fun _ => .ok (.obj []) }

/-- A sensor list with a CO2 sensor record that has no parameter member. -/
def co2NoParamRoom : Healthbox3Room :=
  { advanced_features := true, room_id := "5", name := .str "office", type := .str "t",
    sensors_data := [.obj [("type", .str "indoor CO2")]],
    enabled_sensors := [.str "indoor CO2"], room_type := .str "t",
    parameters := .obj [], actuator := .arr [], profile := .str "p" }

/-- A boost payload carrying level, enable and remaining. -/
def boostPayload : Json :=
  .obj [("level", .num 2), ("enable", .bool true), ("remaining", .num 30)]

/-- A membership key found by lookup is found by any. -/
theorem lookupAnyTrue (k : String) (v : Json) :
    ∀ kvs : List (String × Json), kvs.lookup k = some v →
      kvs.any (fun kv => kv.1 == k) = true := by
  intro kvs h
  induction kvs with
  | nil => simp [List.lookup] at h
  | cons kv t ih =>
    obtain ⟨a, b⟩ := kv
    by_cases hk : (k == a) = true
    · have ha : a = k := (eq_of_beq hk).symm
      simp [ha]
    · have hk' : (k == a) = false := by simpa using hk
      simp only [List.lookup, hk'] at h
      simp [ih h]

/-- ensureSession leaves a client that already has a session unchanged. -/
theorem ensureSession_some (c : Healthbox3) (s : Nat) (h : c.session = some s) :
    ∀ n, c.ensureSession n = c := by
  intro n
  simp [Healthbox3.ensureSession, h]

/-- Folding ensureSession over a client that already has a session is the identity. -/
theorem foldl_ensureSession_some (s : Nat) :
    ∀ (ops : List Nat) (c : Healthbox3), c.session = some s →
      ops.foldl Healthbox3.ensureSession c = c := by
  intro ops
  induction ops with
  | nil => intro c _; rfl
  | cons n t ih =>
    intro c h
    simp only [List.foldl]
    rw [ensureSession_some c s h n]
    exact ih c h

/-- Claim C1: the spec says each enrichment call of async_get_data swallows every
exception its request raises and leaves prior/default values intact, so the whole fetch
raises only if the primary GET raises. The code instead raises AttributeError out of the
finally-clause log when the error-list request fails, because Healthbox3DataObject never
initializes error_count: here the primary GET succeeds, the error-list GET times out, and
the whole fetch fails with AttributeError. -/
theorem c1_enrichment_failure_raises_attribute_error :
    Healthbox3.async_get_data false rsErrorsTimeout =
      .error (.py .attributeError) := rfl

/-- Claim C2: the spec says a client constructed without an API key fails
enable_advanced_features with an authentication error and issues no request. The code
raises AttributeError instead (the constructor assigns _api_key only when truthy and the
class declares no default, so the opening test reads a missing attribute), though indeed
before any request is issued: the endpoint log is empty. -/
theorem c2_enable_without_key_attribute_error (host : String) (session : Option Nat)
    (pre : Bool) (r1 r2 r3 : Except ApiClientError Json) :
    Healthbox3.async_enable_advanced_api_features (Healthbox3.init host none session)
        pre r1 r2 r3 = (.error (.py .attributeError), [])
    ∧ Healthbox3.async_enable_advanced_api_features (Healthbox3.init host (some "") session)
        pre r1 r2 r3 = (.error (.py .attributeError), []) :=
  ⟨rfl, rfl⟩

/-- Evaluation of the airflow computation on the example room: nominal 2, offset 1,
flow rate 6 give the rate 2. -/
theorem exampleAirflowRate :
    exampleAirflowRoom._get_airflow_ventilation_rate = .ok (some (.num 2)) := by
  have hn : exampleAirflowRoom.nominalLookup = .ok (.num 2) := rfl
  have ho : exampleAirflowRoom.effOffset = .ok (.num 1) := rfl
  have hv : exampleAirflowRoom.airValves =
      .ok [.obj [("type", .str "air valve"),
                 ("parameter", .obj [("flow_rate", .obj [("value", .num 6)])])]] := rfl
  have hf : flowRateLookup (.obj [("type", .str "air valve"),
      ("parameter", .obj [("flow_rate", .obj [("value", .num 6)])])]) = .ok (.num 6) := rfl
  simp only [Healthbox3Room._get_airflow_ventilation_rate, hn, ho, hv, hf, Json.asNum]
  norm_num

/-- Claim C3 counterexample: a room with advanced features disabled whose
airflow_ventilation_rate is nonetheless set (to 2), because that property is not gated on
the advanced-features flag; this refutes the claim that every derived reading including
airflow_ventilation_rate is unset for such rooms. -/
theorem c3_counterexample_airflow_set_when_disabled :
    exampleAirflowRoom.advanced_features = false
    ∧ exampleAirflowRoom.airflow_ventilation_rate = .ok (some (.num 2)) :=
  ⟨rfl, exampleAirflowRate⟩

/-- Claim C3 (amended): for every room with the advanced-features flag false, the six
sensor-derived readings are unset regardless of payload content, while
airflow_ventilation_rate does not depend on the flag at all. -/
theorem c3_disabled_room_sensor_properties_unset (room : Healthbox3Room)
    (h : room.advanced_features = false) :
    room.indoor_temperature = .ok none
    ∧ room.indoor_humidity = .ok none
    ∧ room.indoor_co2_concentration = .ok none
    ∧ room.indoor_aqi = .ok none
    ∧ room.indoor_voc_ppm = .ok none
    ∧ room.indoor_voc_microg_per_cubic = .ok none
    ∧ ∀ b, Healthbox3Room.airflow_ventilation_rate { room with advanced_features := b }
        = room.airflow_ventilation_rate := by
  refine ⟨?_, ?_, ?_, ?_, ?_, ?_, ?_⟩
  · simp [Healthbox3Room.indoor_temperature, h]
  · simp [Healthbox3Room.indoor_humidity, h]
  · simp [Healthbox3Room.indoor_co2_concentration, h]
  · simp [Healthbox3Room.indoor_aqi, h]
  · simp [Healthbox3Room.indoor_voc_ppm, h]
  · simp [Healthbox3Room.indoor_voc_microg_per_cubic, h]
  · intro b; rfl

/-- Claim C3 witness: the amended statement applied to a concrete disabled room. -/
theorem c3_witness :
    exampleAirflowRoom.indoor_temperature = .ok none :=
  (c3_disabled_room_sensor_properties_unset exampleAirflowRoom rfl).1

/-- Claim C4 counterexample: on a room whose sensor list is empty, _get_sensor_value
raises IndexError (the comprehension result is indexed at 0), refuting the claim that an
absent sensor makes it return unset rather than raising. -/
theorem c4_counterexample_missing_sensor_raises :
    emptySensorsRoom._get_sensor_value "indoor CO2" = .error .indexError := rfl

/-- Claim C4 (amended): _get_sensor_value never raises when a matching sensor record
exists but is malformed: a first match that fails validation (no parameter member, or a
parameter member lacking the expected key) yields unset; but when no sensor record's
type contains the type name, it raises IndexError (the public properties guard this case
through the enabled_sensors membership test). -/
theorem c4_sensor_value_malformed_unset :
    (∀ (room : Healthbox3Room) (t : String),
        filterMatches t room.sensors_data = .ok [] →
        room._get_sensor_value t = .error .indexError)
    ∧ (∀ (room : Healthbox3Room) (t k : String) (sensor : Json) (rest : List Json),
        filterMatches t room.sensors_data = .ok (sensor :: rest) →
        sensor_type_keys.lookup t = some k →
        Healthbox3Room._validate_sensor sensor k = .ok false →
        room._get_sensor_value t = .ok none)
    ∧ (∀ (kvs : List (String × Json)) (k : String),
        kvs.any (fun kv => kv.1 == "parameter") = false →
        Healthbox3Room._validate_sensor (.obj kvs) k = .ok false)
    ∧ (∀ (kvs pkvs : List (String × Json)) (k : String),
        kvs.lookup "parameter" = some (.obj pkvs) →
        pkvs.any (fun kv => kv.1 == k) = false →
        Healthbox3Room._validate_sensor (.obj kvs) k = .ok false) := by
  refine ⟨?_, ?_, ?_, ?_⟩
  · intro room t h
    simp only [Healthbox3Room._get_sensor_value, h, Bind.bind, Except.bind]
  · intro room t k sensor rest h1 h2 h3
    simp only [Healthbox3Room._get_sensor_value, h1, h2, h3, Bind.bind, Except.bind,
      Bool.false_eq_true, if_false]
  · intro kvs k h
    simp only [Healthbox3Room._validate_sensor, Json.containsStr, h, Bind.bind,
      Except.bind, Bool.false_eq_true, if_false]
  · intro kvs pkvs k h1 h2
    have hany := lookupAnyTrue "parameter" (.obj pkvs) kvs h1
    simp only [Healthbox3Room._validate_sensor, Json.containsStr, hany, Bind.bind,
      Except.bind, if_true, Json.getKey, h1, h2, Bool.false_eq_true, if_false]

/-- Claim C4 witness: a CO2 sensor record without a parameter member yields unset. -/
theorem c4_witness :
    co2NoParamRoom._get_sensor_value "indoor CO2" = .ok none :=
  c4_sensor_value_malformed_unset.2.1 co2NoParamRoom "indoor CO2" "concentration"
    (.obj [("type", .str "indoor CO2")]) [] rfl rfl rfl

/-- Claim C5 counterexample: a response with status 304 is not 2xx, yet request succeeds
and returns the parsed body, because raise_for_status only raises for statuses of 400 and
above; this refutes the clause that any other non-2xx status fails with the generic API
error. -/
theorem c5_counterexample_status_304_succeeds :
    Healthbox3.request false (.response 304 .null "") = .ok (.inl .null)
    ∧ 300 ≤ 304 ∧ 304 < 400 :=
  ⟨rfl, by norm_num, by norm_num⟩

/-- Claim C5 (amended): a response status of 401 or 403 fails with the authentication
error (classified before the generic status check); a timeout fails with the
communication error; a status of 400 or above other than 401/403 fails with the generic
API error carrying the status; a transport error fails with the generic API error
preserving the underlying exception as its cause; statuses below 400 do not fail. -/
theorem c5_request_error_classification (status : Nat) (body : Json) (text : String)
    (e : AioException) (expect : Bool) :
    (status = 401 ∨ status = 403 →
        Healthbox3.request expect (.response status body text) = .error .authenticationError)
    ∧ Healthbox3.request expect .timeout = .error .communicationError
    ∧ (400 ≤ status → status ≠ 401 → status ≠ 403 →
        Healthbox3.request expect (.response status body text) =
          .error (.apiError (.badStatus status)))
    ∧ Healthbox3.request expect (.transportError e) = .error (.apiError (.transport e)) := by
  refine ⟨?_, rfl, ?_, rfl⟩
  · intro h
    simp only [Healthbox3.request, h, if_true, if_pos]
  · intro h400 h401 h403
    have hor : ¬(status = 401 ∨ status = 403) := by
      rintro (h | h) <;> [exact h401 h; exact h403 h]
    simp only [Healthbox3.request, hor, if_false, h400, if_true, if_pos]

/-- Claim C5 witness: the amended classification applied at statuses 401 and 500 and to a
concrete transport error. -/
theorem c5_witness :
    Healthbox3.request false (.response 401 .null "") = .error .authenticationError
    ∧ Healthbox3.request false (.response 500 .null "") =
        .error (.apiError (.badStatus 500)) :=
  ⟨(c5_request_error_classification 401 .null "" ⟨""⟩ false).1 (Or.inl rfl),
   (c5_request_error_classification 500 .null "" ⟨""⟩ false).2.2.1 (by norm_num)
     (by norm_num) (by norm_num)⟩

/-- Claim C6: airflow_ventilation_rate is unset when the nominal value is missing (a
KeyError in the nominal lookup), a missing offset value defaults to 0, the result is
unset when no air-valve actuator exists or the first one has no flow_rate value, and
otherwise equals flow_rate / (nominal + offset); in particular nominal 2, offset 1 and
flow rate 6 give 2. -/
theorem c6_airflow_ventilation_rate_spec (room : Healthbox3Room) :
    (∀ k, room.nominalLookup = .error (.keyError k) →
        room._get_airflow_ventilation_rate = .ok none)
    ∧ (∀ k, room.offsetLookup = .error (.keyError k) → room.effOffset = .ok (.num 0))
    ∧ (∀ n o, room.nominalLookup = .ok n → room.effOffset = .ok o →
        room.airValves = .ok [] → room._get_airflow_ventilation_rate = .ok none)
    ∧ (∀ n o v vs k, room.nominalLookup = .ok n → room.effOffset = .ok o →
        room.airValves = .ok (v :: vs) → flowRateLookup v = .error (.keyError k) →
        room._get_airflow_ventilation_rate = .ok none)
    ∧ (∀ (qn qo qf : ℚ) (v : Json) (vs : List Json),
        room.nominalLookup = .ok (.num qn) → room.effOffset = .ok (.num qo) →
        room.airValves = .ok (v :: vs) → flowRateLookup v = .ok (.num qf) →
        qn + qo ≠ 0 →
        room._get_airflow_ventilation_rate = .ok (some (.num (qf / (qn + qo)))))
    ∧ exampleAirflowRoom._get_airflow_ventilation_rate = .ok (some (.num 2)) := by
  refine ⟨?_, ?_, ?_, ?_, ?_, exampleAirflowRate⟩
  · intro k h
    simp only [Healthbox3Room._get_airflow_ventilation_rate, h]
  · intro k h
    simp only [Healthbox3Room.effOffset, h]
  · intro n o h1 h2 h3
    simp only [Healthbox3Room._get_airflow_ventilation_rate, h1, h2, h3]
  · intro n o v vs k h1 h2 h3 h4
    simp only [Healthbox3Room._get_airflow_ventilation_rate, h1, h2, h3, h4]
  · intro qn qo qf v vs h1 h2 h3 h4 h5
    simp only [Healthbox3Room._get_airflow_ventilation_rate, h1, h2, h3, h4, Json.asNum,
      h5, if_false]

/-- Claim C6 witness: the missing-nominal case and the fully concrete division case. -/
theorem c6_witness :
    noNominalRoom._get_airflow_ventilation_rate = .ok none
    ∧ exampleAirflowRoom._get_airflow_ventilation_rate =
        .ok (some (.num ((6 : ℚ) / (2 + 1)))) :=
  ⟨(c6_airflow_ventilation_rate_spec noNominalRoom).1 "nominal" rfl,
   (c6_airflow_ventilation_rate_spec exampleAirflowRoom).2.2.2.2.1 2 1 6
     (.obj [("type", .str "air valve"),
            ("parameter", .obj [("flow_rate", .obj [("value", .num 6)])])]) []
     rfl rfl rfl rfl (by norm_num)⟩

/-- Claim C7: async_get_room_boost_data returns the default Healthbox3RoomBoost
(level None, enabled False, remaining None) on a failed request and on a payload whose
try-body fails (missing or malformed keys), and returns exactly the payload's level,
enable and remaining values when all three keys are present. -/
theorem c7_boost_default_on_failure :
    (∀ e : ApiClientError, Healthbox3.async_get_room_boost_data (.error e) =
        { level := .null, enabled := .bool false, remaining := .null })
    ∧ (∀ (data : Json) (e2 : FetchError), boostBody (.ok data) = .error e2 →
        Healthbox3.async_get_room_boost_data (.ok data) =
          { level := .null, enabled := .bool false, remaining := .null })
    ∧ (∀ (data l en r : Json), data.getKey "level" = .ok l →
        data.getKey "enable" = .ok en → data.getKey "remaining" = .ok r →
        Healthbox3.async_get_room_boost_data (.ok data) =
          { level := l, enabled := en, remaining := r }) := by
  refine ⟨?_, ?_, ?_⟩
  · intro e; rfl
  · intro data e2 h
    simp only [Healthbox3.async_get_room_boost_data, h]
  · intro data l en r h1 h2 h3
    have hb : boostBody (.ok data) = .ok { level := l, enabled := en, remaining := r } := by
      simp only [boostBody, Except.mapError, h1, h2, h3, Bind.bind, Except.bind]
    simp only [Healthbox3.async_get_room_boost_data, hb]

/-- Claim C7 witness: a payload carrying level 2, enable true and remaining 30 yields
exactly those values. -/
theorem c7_witness :
    Healthbox3.async_get_room_boost_data (.ok boostPayload) =
      { level := .num 2, enabled := .bool true, remaining := .num 30 } :=
  c7_boost_default_on_failure.2.2 boostPayload (.num 2) (.bool true) (.num 30)
    rfl rfl rfl

/-- Claim C8: whenever indoor_voc_ppm yields a numeric value, indoor_voc_microg_per_cubic
yields that value times 1000 (including value 0, which the truthiness guard leaves at 0,
still equal to 0 times 1000); and whenever indoor_voc_ppm is unset,
indoor_voc_microg_per_cubic is unset. -/
theorem c8_voc_microg_ppm_relation (room : Healthbox3Room) (q : ℚ) :
    (room.indoor_voc_ppm = .ok (some (.num q)) →
        room.indoor_voc_microg_per_cubic = .ok (some (.num (q * 1000))))
    ∧ (room.indoor_voc_ppm = .ok none → room.indoor_voc_microg_per_cubic = .ok none) := by
  constructor
  · intro h
    by_cases hg : (room.advanced_features &&
        room.enabled_sensors.any (fun j => j.eqStr "indoor volatile organic compounds")) = true
    · simp only [Healthbox3Room.indoor_voc_ppm, hg, if_true] at h
      simp only [Healthbox3Room.indoor_voc_microg_per_cubic, hg, if_true, h, Bind.bind,
        Except.bind]
      by_cases hq : q = 0
      · subst hq
        simp [Json.truthy]
      · simp [Json.truthy, hq, Json.mulThousand]
    · simp [Healthbox3Room.indoor_voc_ppm, hg] at h
  · intro h
    by_cases hg : (room.advanced_features &&
        room.enabled_sensors.any (fun j => j.eqStr "indoor volatile organic compounds")) = true
    · simp only [Healthbox3Room.indoor_voc_ppm, hg, if_true] at h
      simp only [Healthbox3Room.indoor_voc_microg_per_cubic, hg, if_true, h, Bind.bind,
        Except.bind]
    · simp [Healthbox3Room.indoor_voc_microg_per_cubic, hg]

/-- Claim C8 witness: the relation at a concrete room whose VOC concentration is 4. -/
theorem c8_witness :
    vocRoom.indoor_voc_microg_per_cubic = .ok (some (.num (4 * 1000))) :=
  (c8_voc_microg_ppm_relation vocRoom 4).1 rfl

/-- Claim C9: close never closes a session supplied at construction (the constructor sets
the ownership flag false and request's session setup leaves an existing session alone),
it does close a session the client itself created lazily on first request, and closing
leaves the client state unchanged. -/
theorem c9_close_session_ownership (host : String) (key : Option String) (s fresh : Nat)
    (ops : List Nat) :
    (Healthbox3.close (ops.foldl Healthbox3.ensureSession
        (Healthbox3.init host key (some s)))).2 = none
    ∧ (Healthbox3.close (ops.foldl Healthbox3.ensureSession
        ((Healthbox3.init host key none).ensureSession fresh))).2 = some fresh
    ∧ ∀ c : Healthbox3, (Healthbox3.close c).1 = c := by
  refine ⟨?_, ?_, ?_⟩
  · rw [foldl_ensureSession_some s ops _ rfl]
    rfl
  · rw [foldl_ensureSession_some fresh ops _ rfl]
    rfl
  · intro c
    unfold Healthbox3.close
    cases hs : c.session with
    | none => rfl
    | some s' => cases hcs : c.close_session <;> simp

/-- Claim C10 counterexample: a valid-JSON primary payload that lacks the top-level room
key, but whose sensor member is a number: constructing the snapshot raises TypeError
(iterating the sensor member), not a KeyError, refuting the claim as universally
stated. -/
theorem c10_counterexample_typeerror_not_keyerror :
    Healthbox3DataObject.init payloadNoRoomBadSensor false = .error .typeError
    ∧ payloadNoRoomBadSensor.getKey "room" = .error (.keyError "room") :=
  ⟨rfl, rfl⟩

/-- Claim C10 (amended): snapshot construction is not total over 2xx responses; a missing
top-level serial, description, warranty_number or sensor key raises a plain KeyError
naming it, a missing room key raises a plain KeyError provided the global-AQI scan over
the sensor member succeeded, and a room entry missing name, type, sensor, parameter,
actuator or profile_name raises a plain KeyError once construction reaches that key
(a malformed present value can instead raise a plain TypeError); such an error is not one
of the three API-client error classes and propagates out of async_get_data. -/
theorem c10_missing_keys_raise_keyerror :
    (∀ (adv : Bool) (kvs : List (String × Json)),
        kvs.lookup "serial" = none →
        Healthbox3DataObject.init (.obj kvs) adv = .error (.keyError "serial"))
    ∧ (∀ (adv : Bool) (kvs : List (String × Json)) (s : Json),
        kvs.lookup "serial" = some s → kvs.lookup "description" = none →
        Healthbox3DataObject.init (.obj kvs) adv = .error (.keyError "description"))
    ∧ (∀ (adv : Bool) (kvs : List (String × Json)) (s d : Json),
        kvs.lookup "serial" = some s → kvs.lookup "description" = some d →
        kvs.lookup "warranty_number" = none →
        Healthbox3DataObject.init (.obj kvs) adv = .error (.keyError "warranty_number"))
    ∧ (∀ (adv : Bool) (kvs : List (String × Json)) (s d w : Json),
        kvs.lookup "serial" = some s → kvs.lookup "description" = some d →
        kvs.lookup "warranty_number" = some w → kvs.lookup "sensor" = none →
        Healthbox3DataObject.init (.obj kvs) adv = .error (.keyError "sensor"))
    ∧ (∀ (adv : Bool) (kvs : List (String × Json)) (s d w : Json) (aq : Option Json),
        kvs.lookup "serial" = some s → kvs.lookup "description" = some d →
        kvs.lookup "warranty_number" = some w →
        Healthbox3DataObject._get_global_aqi_from_data (.obj kvs) = .ok aq →
        kvs.lookup "room" = none →
        Healthbox3DataObject.init (.obj kvs) adv = .error (.keyError "room"))
    ∧ (∀ (adv : Bool) (rid : String) (rkvs : List (String × Json)),
        rkvs.lookup "name" = none →
        Healthbox3Room.init rid (.obj rkvs) adv = .error (.keyError "name"))
    ∧ (∀ (adv : Bool) (rid : String) (rkvs : List (String × Json)) (n : Json),
        rkvs.lookup "name" = some n → rkvs.lookup "type" = none →
        Healthbox3Room.init rid (.obj rkvs) adv = .error (.keyError "type"))
    ∧ (∀ (adv : Bool) (rid : String) (rkvs : List (String × Json)) (n t : Json),
        rkvs.lookup "name" = some n → rkvs.lookup "type" = some t →
        rkvs.lookup "sensor" = none →
        Healthbox3Room.init rid (.obj rkvs) adv = .error (.keyError "sensor"))
    ∧ (∀ (adv : Bool) (rid : String) (rkvs : List (String × Json)) (n t sj : Json)
        (sl es : List Json),
        rkvs.lookup "name" = some n → rkvs.lookup "type" = some t →
        rkvs.lookup "sensor" = some sj → sj.pyIter = .ok sl →
        sl.mapM (fun x => x.getKey "type") = .ok es →
        rkvs.lookup "parameter" = none →
        Healthbox3Room.init rid (.obj rkvs) adv = .error (.keyError "parameter"))
    ∧ (∀ (adv : Bool) (rid : String) (rkvs : List (String × Json)) (n t sj p : Json)
        (sl es : List Json),
        rkvs.lookup "name" = some n → rkvs.lookup "type" = some t →
        rkvs.lookup "sensor" = some sj → sj.pyIter = .ok sl →
        sl.mapM (fun x => x.getKey "type") = .ok es →
        rkvs.lookup "parameter" = some p → rkvs.lookup "actuator" = none →
        Healthbox3Room.init rid (.obj rkvs) adv = .error (.keyError "actuator"))
    ∧ (∀ (adv : Bool) (rid : String) (rkvs : List (String × Json)) (n t sj p a : Json)
        (sl es : List Json),
        rkvs.lookup "name" = some n → rkvs.lookup "type" = some t →
        rkvs.lookup "sensor" = some sj → sj.pyIter = .ok sl →
        sl.mapM (fun x => x.getKey "type") = .ok es →
        rkvs.lookup "parameter" = some p → rkvs.lookup "actuator" = some a →
        rkvs.lookup "profile_name" = none →
        Healthbox3Room.init rid (.obj rkvs) adv = .error (.keyError "profile_name"))
    ∧ (∀ (adv : Bool) (rs : FetchResponses) (gd : Json) (e : PyError),
        rs.primary = .ok gd → Healthbox3DataObject.init gd adv = .error e →
        Healthbox3.async_get_data adv rs = .error (.py e)) := by
  refine ⟨?_, ?_, ?_, ?_, ?_, ?_, ?_, ?_, ?_, ?_, ?_, ?_⟩
  · intro adv kvs h1
    simp only [Healthbox3DataObject.init, Json.getKey, h1, Bind.bind, Except.bind]
  · intro adv kvs s h1 h2
    simp only [Healthbox3DataObject.init, Json.getKey, h1, h2, Bind.bind, Except.bind]
  · intro adv kvs s d h1 h2 h3
    simp only [Healthbox3DataObject.init, Json.getKey, h1, h2, h3, Bind.bind, Except.bind]
  · intro adv kvs s d w h1 h2 h3 h4
    simp only [Healthbox3DataObject.init, Healthbox3DataObject._get_global_aqi_from_data,
      Json.getKey, h1, h2, h3, h4, Bind.bind, Except.bind]
  · intro adv kvs s d w aq h1 h2 h3 h4 h5
    simp only [Healthbox3DataObject.init, Json.getKey, h1, h2, h3, h4, h5, Bind.bind,
      Except.bind]
  · intro adv rid rkvs h1
    simp only [Healthbox3Room.init, Json.getKey, h1, Bind.bind, Except.bind]
  · intro adv rid rkvs n h1 h2
    simp only [Healthbox3Room.init, Json.getKey, h1, h2, Bind.bind, Except.bind]
  · intro adv rid rkvs n t h1 h2 h3
    simp only [Healthbox3Room.init, Json.getKey, h1, h2, h3, Bind.bind, Except.bind]
  · intro adv rid rkvs n t sj sl es h1 h2 h3 h4 h5 h6
    simp only [Json.getKey] at h5
    simp only [Healthbox3Room.init, Json.getKey, h1, h2, h3, h4, h5, h6, Bind.bind,
      Except.bind]
  · intro adv rid rkvs n t sj p sl es h1 h2 h3 h4 h5 h6 h7
    simp only [Json.getKey] at h5
    simp only [Healthbox3Room.init, Json.getKey, h1, h2, h3, h4, h5, h6, h7, Bind.bind,
      Except.bind]
  · intro adv rid rkvs n t sj p a sl es h1 h2 h3 h4 h5 h6 h7 h8
    simp only [Json.getKey] at h5
    simp only [Healthbox3Room.init, Json.getKey, h1, h2, h3, h4, h5, h6, h7, h8,
      Bind.bind, Except.bind]
  · intro adv rs gd e h1 h2
    simp only [Healthbox3.async_get_data, h1, h2, Except.mapError, Bind.bind, Except.bind]

/-- Claim C10 witness: the amended statement at an empty payload (missing serial) and at
a room entry missing profile_name. -/
theorem c10_witness :
    Healthbox3DataObject.init (.obj []) false = .error (.keyError "serial")
    ∧ Healthbox3Room.init "1"
        (.obj [("name", .str "n"), ("type", .str "t"), ("sensor", .arr []),
               ("parameter", .obj []), ("actuator", .arr [])]) false =
        .error (.keyError "profile_name") :=
  ⟨c10_missing_keys_raise_keyerror.1 false [] rfl,
   c10_missing_keys_raise_keyerror.2.2.2.2.2.2.2.2.2.2.1 false "1"
     [("name", .str "n"), ("type", .str "t"), ("sensor", .arr []),
      ("parameter", .obj []), ("actuator", .arr [])]
     (.str "n") (.str "t") (.arr []) (.obj []) (.arr []) [] []
     rfl rfl rfl rfl rfl rfl rfl rfl⟩
